import Mathlib

/-!
Verification of the manim-agent pipeline core against its specification.

The Python sources are shallowly embedded:
* `manim_agent/config/quality_standards.py` (duration bucket table, validators),
* `manim_agent/core/token_optimizer.py` (budget allocator),
* `manim_agent/core/llm_service.py` (structured-output recovery chain,
  together with a model of CPython `json.loads` error reporting),
* `manim_agent/core/advanced_orchestrator.py` (refinement loop, fast path),
* `api_server.py` (render recovery loop).

External generative calls are nondeterministic collaborators; they are
modelled as oracles indexed by the invocation count.  Python `int` durations
are modelled as `Nat` (requests carry positive durations), Python floats in
the allocator as exact rationals with `int()` truncation toward zero.
-/

/-! ## quality_standards.py -/

/-- Duration-bucket table entry of `get_quality_standards`.
`transition_time` is a float in the source (1, 1.5, 2, 2.5, 3), kept as `ℚ`;
the duration pairs are `(lo, hi)` ranges in seconds. -/
structure QualityStandards where
  min_duration : Nat
  min_sections : Nat
  min_animations_per_section : Nat
  min_total_animations : Nat
  hook_duration : Nat × Nat
  section_duration : Nat × Nat
  summary_duration : Nat × Nat
  transition_time : ℚ
deriving Repr, DecidableEq

/-- `get_quality_standards(duration_minutes)` from `quality_standards.py`. -/
def get_quality_standards (duration_minutes : Nat) : QualityStandards :=
  if duration_minutes ≤ 1 then
    { min_duration := 50
      min_sections := 2
      min_animations_per_section := 1
      min_total_animations := 3
      hook_duration := (5, 10)
      section_duration := (20, 30)
      summary_duration := (5, 10)
      transition_time := 1 }
  else if duration_minutes ≤ 3 then
    { min_duration := duration_minutes * 55
      min_sections := 3
      min_animations_per_section := 3
      min_total_animations := 10
      hook_duration := (10, 15)
      section_duration := (30, 45)
      summary_duration := (10, 20)
      transition_time := 3 / 2 }
  else if duration_minutes ≤ 5 then
    { min_duration := duration_minutes * 55
      min_sections := 4
      min_animations_per_section := 4
      min_total_animations := 20
      hook_duration := (15, 20)
      section_duration := (45, 60)
      summary_duration := (20, 30)
      transition_time := 2 }
  else if duration_minutes ≤ 10 then
    { min_duration := duration_minutes * 55
      min_sections := 6
      min_animations_per_section := 5
      min_total_animations := 35
      hook_duration := (20, 30)
      section_duration := (60, 90)
      summary_duration := (30, 45)
      transition_time := 5 / 2 }
  else
    { min_duration := duration_minutes * 55
      min_sections := 8
      min_animations_per_section := 6
      min_total_animations := 50
      hook_duration := (30, 45)
      section_duration := (90, 120)
      summary_duration := (45, 60)
      transition_time := 3 }

/-- One section of a content record, with the fields the validators and the
orchestrator read (`content.get("sections", [])`, `s.get("content", "")`,
`s.get("examples", [])`). -/
structure ContentSection where
  name : String
  content : String
  examples : List String
  duration : Nat
deriving Repr, DecidableEq

/-- A content record as consumed by `validate_content_quality`:
`content.get("total_duration", 0)` and `content.get("sections", [])`. -/
structure ContentRecord where
  total_duration : Nat
  sections : List ContentSection
deriving Repr, DecidableEq

/-- `validate_content_quality(content, duration_minutes)` from
`quality_standards.py`: checks only the total declared duration and the
section count against the bucket table and returns
`(len(issues) == 0, issues)`. -/
def validate_content_quality (content : ContentRecord) (duration_minutes : Nat) :
    Bool × List String :=
  let standards := get_quality_standards duration_minutes
  let issues : List String :=
    (if content.total_duration < standards.min_duration then
      ["Duration " ++ toString content.total_duration ++ "s is below minimum "
        ++ toString standards.min_duration ++ "s"]
    else []) ++
    (if content.sections.length < standards.min_sections then
      ["Only " ++ toString content.sections.length ++ " sections, need at least "
        ++ toString standards.min_sections]
    else [])
  (issues.length = 0, issues)

/-- One scene of a visual design (`scene.get("animations", [])`). -/
structure VisualScene where
  animations : List String
deriving Repr, DecidableEq

/-- A visual-design record (`visual_design.get("scenes", [])`). -/
structure VisualDesign where
  scenes : List VisualScene
deriving Repr, DecidableEq

/-- Issues produced by the per-scene animation-density loop of
`validate_visual_quality`. -/
def visualSceneIssues (standards : QualityStandards) :
    Nat → List VisualScene → List String
  | _, [] => []
  | i, scene :: rest =>
    (if scene.animations.length < standards.min_animations_per_section then
      ["Scene " ++ toString (i + 1) ++ " has only "
        ++ toString scene.animations.length ++ " animations, need at least "
        ++ toString standards.min_animations_per_section]
    else []) ++ visualSceneIssues standards (i + 1) rest

/-- `validate_visual_quality(visual_design, duration_minutes)` from
`quality_standards.py`. -/
def validate_visual_quality (visual_design : VisualDesign) (duration_minutes : Nat) :
    Bool × List String :=
  let standards := get_quality_standards duration_minutes
  let issues : List String :=
    (if visual_design.scenes.length < standards.min_sections then
      ["Only " ++ toString visual_design.scenes.length
        ++ " scenes, need at least " ++ toString standards.min_sections]
    else []) ++ visualSceneIssues standards 0 visual_design.scenes
  (issues.length = 0, issues)

/-! ## token_optimizer.py -/

/-- Per-model entry of `TokenOptimizer.MODEL_LIMITS`. -/
structure ModelLimits where
  maxTokens : Int
  defaultTokens : Int
  minimum : Int
deriving Repr, DecidableEq

/-- The `"sonnet"` row of `MODEL_LIMITS`. -/
def sonnetLimits : ModelLimits := ⟨64000, 32000, 1500⟩

/-- The `"opus"` row of `MODEL_LIMITS`. -/
def opusLimits : ModelLimits := ⟨32000, 32000, 2000⟩

/-- `TokenOptimizer.MODEL_LIMITS` as an association list. -/
def MODEL_LIMITS : List (String × ModelLimits) :=
  [("opus", opusLimits), ("sonnet", sonnetLimits)]

/-- Per-task entry of `TokenOptimizer.TASK_LIMITS` (`base` is a float in the
source, kept as `ℚ`). -/
structure TaskLimit where
  base : ℚ
  per_minute : Int
deriving Repr, DecidableEq

/-- `TokenOptimizer.TASK_LIMITS` as an association list. -/
def TASK_LIMITS : List (String × TaskLimit) :=
  [("content", ⟨1, 1000⟩), ("visual", ⟨1, 800⟩), ("code", ⟨1, 2000⟩)]

/-- `TokenOptimizer.DURATION_MULTIPLIERS` (sorted, as iterated by the loop). -/
def DURATION_MULTIPLIERS : List (Nat × ℚ) :=
  [(1, 1), (3, 1), (5, 1), (10, 1), (15, 1)]

/-- The `for minutes, multiplier in sorted(...): if duration_key <= minutes:
... break / else: DURATION_MULTIPLIERS[15]` loop of `get_optimal_tokens`. -/
def durationMultiplierLoop (duration_key : Nat) : List (Nat × ℚ) → ℚ
  | [] => 1
  | (minutes, multiplier) :: rest =>
    if duration_key ≤ minutes then multiplier
    else durationMultiplierLoop duration_key rest

/-- Duration multiplier selection (with `duration_key = min(duration_minutes, 15)`). -/
def durationMultiplier (duration_minutes : Nat) : ℚ :=
  durationMultiplierLoop (min duration_minutes 15) DURATION_MULTIPLIERS

/-- Python `int(q)`: truncation toward zero. -/
def pyInt (q : ℚ) : Int := if 0 ≤ q then ⌊q⌋ else ⌈q⌉

/-- `TokenOptimizer.get_optimal_tokens(model, duration_minutes, task, complexity)`.
The float multiplications by `0.7` and `1.3` are modelled as exact rational
scaling followed by `int()` truncation; the properties proved below
(monotonicity in duration, clamping, fallback for unknown models) are
insensitive to the ulp-level difference to binary floats. -/
def get_optimal_tokens (model : String) (duration_minutes : Nat)
    (task : String) (complexity : String) : Int :=
  let model_config := (MODEL_LIMITS.lookup model).getD sonnetLimits
  let base_limit : Int := model_config.defaultTokens
  let duration_multiplier : ℚ := durationMultiplier duration_minutes
  let base_limit : Int :=
    match TASK_LIMITS.lookup task with
    | some task_config =>
        pyInt ((base_limit : ℚ) * task_config.base
          + (task_config.per_minute : ℚ) * (duration_minutes : ℚ))
    | none => base_limit
  let optimal_tokens : Int := pyInt ((base_limit : ℚ) * duration_multiplier)
  let optimal_tokens : Int :=
    if complexity = "simple" then pyInt ((optimal_tokens : ℚ) * (7 / 10))
    else if complexity = "complex" then pyInt ((optimal_tokens : ℚ) * (13 / 10))
    else optimal_tokens
  max model_config.minimum (min optimal_tokens model_config.maxTokens)

/-! ## String utilities (Python `str.strip`, substring test, regex `\s`) -/

/-- Python whitespace (`str.strip()` default set and regex `\s`, ASCII range). -/
def pyIsSpace (c : Char) : Bool :=
  c = ' ' || c = '\t' || c = '\n' || c = '\r' || c = '\x0b' || c = '\x0c'

/-- JSON-module whitespace (`json.decoder.WHITESPACE_STR = ' \t\n\r'`). -/
def jsonWs (c : Char) : Bool :=
  c = ' ' || c = '\t' || c = '\n' || c = '\r'

/-- Python `s.strip()` on a character list. -/
def stripList (s : List Char) : List Char :=
  ((s.dropWhile pyIsSpace).reverse.dropWhile pyIsSpace).reverse

/-- Python `pat in s` (substring containment). -/
def containsSub (pat : List Char) : List Char → Bool
  | [] => pat.isEmpty
  | c :: rest => pat.isPrefixOf (c :: rest) || containsSub pat rest

/-- A single-quote character as a string (used to build decoder messages). -/
def sglq : String := String.mk ['\x27']

/-- A single backslash as a string (used to build decoder messages). -/
def backslashStr : String := String.mk ['\\']

/-! ## CPython `json.loads` model

A faithful model of `json/decoder.py` + the C scanner as exercised by
`AnthropicService.generate_json`: strict parsing with CPython error
messages and character positions (checked against CPython 3 behaviour),
and a `JSONDecodeError` value carrying `(msg, pos, doc)` where `doc` is
always the entire text handed to `loads` — exactly as CPython stores it. -/

/-- The decoded JSON value.  Floating-point literals and the non-standard
`NaN`/`Infinity` constants are kept as their source lexemes (no claim below
depends on float arithmetic). -/
inductive PyJson where
  | null
  | bool (b : Bool)
  | int (n : Int)
  | float (lexeme : List Char)
  | str (s : List Char)
  | arr (elems : List PyJson)
  | obj (members : List (List Char × PyJson))

/-- `json.JSONDecodeError`: message, character position, and the full
document (`e.doc`) being parsed. -/
structure PyDecodeError where
  msg : String
  pos : Nat
  doc : List Char
deriving Repr, DecidableEq

/-- `Expecting ':' delimiter` (built without literal apostrophes). -/
def expectingColon : String := "Expecting " ++ sglq ++ ":" ++ sglq ++ " delimiter"

/-- `Expecting ',' delimiter` (built without literal apostrophes). -/
def expectingComma : String := "Expecting " ++ sglq ++ "," ++ sglq ++ " delimiter"

/-- Skip JSON whitespace, tracking the character position. -/
def skipWsList : List Char → Nat → List Char × Nat
  | [], pos => ([], pos)
  | c :: rest, pos =>
    if jsonWs c then skipWsList rest (pos + 1) else (c :: rest, pos)

/-- The `BACKSLASH` escape table of `json/decoder.py`. -/
def escapeChar (c : Char) : Option Char :=
  if c = '"' then some '"'
  else if c = '\\' then some '\\'
  else if c = '/' then some '/'
  else if c = 'b' then some '\x08'
  else if c = 'f' then some '\x0c'
  else if c = 'n' then some '\n'
  else if c = 'r' then some '\r'
  else if c = 't' then some '\t'
  else none

/-- Hex digit value. -/
def hexVal (c : Char) : Option Nat :=
  if '0' ≤ c ∧ c ≤ '9' then some (c.toNat - 48)
  else if 'a' ≤ c ∧ c ≤ 'f' then some (c.toNat - 87)
  else if 'A' ≤ c ∧ c ≤ 'F' then some (c.toNat - 55)
  else none

/-- Value of four hex digits (`_decode_uXXXX`). -/
def hexVal4 (a b c d : Char) : Option Nat :=
  match hexVal a, hexVal b, hexVal c, hexVal d with
  | some x, some y, some z, some w => some (((x * 16 + y) * 16 + z) * 16 + w)
  | _, _, _, _ => none

/-- `scanstring(s, end, strict=True)`: `rest` starts just after the opening
quote, `pos` is its index, `begin` the index of the opening quote.  Returns
(content, rest after closing quote, next index).  Error messages and
positions follow the C scanner (`"Invalid control character at"` points at
the control character itself; surrogate-pair recombination is not modelled —
no input below uses `\uXXXX`). -/
def scanString (begin : Nat) : List Char → Nat → Except (String × Nat) (List Char × List Char × Nat)
  | [], _ => .error ("Unterminated string starting at", begin)
  | c :: rest, pos =>
    if c = '"' then .ok ([], rest, pos + 1)
    else if c = '\\' then
      match rest with
      | [] => .error ("Unterminated string starting at", begin)
      | e :: rest2 =>
        if e = 'u' then
          match rest2 with
          | h1 :: h2 :: h3 :: h4 :: rest6 =>
            match hexVal4 h1 h2 h3 h4 with
            | some code =>
              (scanString begin rest6 (pos + 6)).map
                (fun r => (Char.ofNat code :: r.1, r.2.1, r.2.2))
            | none => .error ("Invalid " ++ backslashStr ++ "uXXXX escape", pos + 2)
          | _ => .error ("Invalid " ++ backslashStr ++ "uXXXX escape", pos + 2)
        else
          match escapeChar e with
          | some ec =>
            (scanString begin rest2 (pos + 2)).map
              (fun r => (ec :: r.1, r.2.1, r.2.2))
          | none => .error ("Invalid " ++ backslashStr ++ "escape", pos + 1)
    else if c.toNat < 0x20 then .error ("Invalid control character at", pos)
    else
      (scanString begin rest (pos + 1)).map
        (fun r => (c :: r.1, r.2.1, r.2.2))

/-- Digit test for the JSON number grammar. -/
def isDigitChar (c : Char) : Bool := decide ('0' ≤ c) && decide (c ≤ '9')

/-- Digits to a natural number. -/
def digitsToNat (ds : List Char) : Nat :=
  ds.foldl (fun acc c => acc * 10 + (c.toNat - 48)) 0

/-- Fraction/exponent tail of `NUMBER_RE = -?(0|[1-9]\d*)(\.\d+)?([eE][-+]?\d+)?`;
each optional group is taken only when it matches completely. -/
def numberTail (neg : Bool) (intDigits : List Char) (s : List Char) (pos : Nat) :
    PyJson × List Char × Nat :=
  let fracStep : List Char × List Char × Nat :=
    match s with
    | '.' :: rest =>
      let ds := rest.takeWhile isDigitChar
      if ds.isEmpty then ([], s, pos)
      else ('.' :: ds, rest.dropWhile isDigitChar, pos + 1 + ds.length)
    | _ => ([], s, pos)
  let fracChars := fracStep.1
  let s2 := fracStep.2.1
  let p2 := fracStep.2.2
  let expStep : List Char × List Char × Nat :=
    match s2 with
    | e :: rest =>
      if e = 'e' || e = 'E' then
        let sgnStep : List Char × List Char :=
          match rest with
          | c :: r => if c = '+' || c = '-' then ([c], r) else ([], rest)
          | [] => ([], [])
        let ds := sgnStep.2.takeWhile isDigitChar
        if ds.isEmpty then ([], s2, p2)
        else (e :: (sgnStep.1 ++ ds), sgnStep.2.dropWhile isDigitChar,
              p2 + 1 + sgnStep.1.length + ds.length)
      else ([], s2, p2)
    | [] => ([], s2, p2)
  let expChars := expStep.1
  let s3 := expStep.2.1
  let p3 := expStep.2.2
  if fracChars.isEmpty && expChars.isEmpty then
    (PyJson.int (if neg then -(digitsToNat intDigits : Int) else (digitsToNat intDigits : Int)),
      s3, p3)
  else
    (PyJson.float ((if neg then ['-'] else []) ++ intDigits ++ fracChars ++ expChars), s3, p3)

/-- Number match at the current position (`NUMBER_RE.match(s, idx)`): an
optional sign, then either a single `0` or a nonzero-led digit run. -/
def matchNumber (s : List Char) (pos : Nat) : Option (PyJson × List Char × Nat) :=
  let signStep : Bool × List Char × Nat :=
    match s with
    | '-' :: rest => (true, rest, pos + 1)
    | _ => (false, s, pos)
  let neg := signStep.1
  let s1 := signStep.2.1
  let p1 := signStep.2.2
  match s1 with
  | '0' :: rest2 => some (numberTail neg ['0'] rest2 (p1 + 1))
  | c :: rest2 =>
    if isDigitChar c then
      let ds := rest2.takeWhile isDigitChar
      some (numberTail neg (c :: ds) (rest2.dropWhile isDigitChar) (p1 + 1 + ds.length))
    else none
  | [] => none

/-- Parsing mode of the single fuel-indexed scanner: a JSON value, the
interior of an object (`objStart` just after `{`, `objLoop` just after a
member key's opening quote), or the interior of an array. -/
inductive PMode where
  | value
  | objStart
  | objLoop (acc : List (List Char × PyJson))
  | arrStart
  | arrLoop (acc : List PyJson)

/-- The scanner (`scan_once` + `JSONObject` + `JSONArray` of
`json/decoder.py`), written as one structurally fuel-recursive function so
that concrete runs reduce definitionally.  `rest` is the unread suffix and
`pos` its index in the whole document; the fuel passed by `rawDecode` always
suffices.  Error messages and positions mirror CPython. -/
def jsonScan (fuel : Nat) (mode : PMode) (s : List Char) (pos : Nat) :
    Except (String × Nat) (PyJson × List Char × Nat) :=
  match fuel with
  | 0 => .error ("scanner fuel exhausted", pos)
  | fuel + 1 =>
    match mode with
    | .value =>
      match s with
      | [] => .error ("Expecting value", pos)
      | c :: rest =>
        if c = '"' then
          (scanString pos rest (pos + 1)).map (fun r => (PyJson.str r.1, r.2.1, r.2.2))
        else if c = '\x7b' then jsonScan fuel .objStart rest (pos + 1)
        else if c = '[' then jsonScan fuel .arrStart rest (pos + 1)
        else if ("null".toList).isPrefixOf s then .ok (.null, s.drop 4, pos + 4)
        else if ("true".toList).isPrefixOf s then .ok (.bool true, s.drop 4, pos + 4)
        else if ("false".toList).isPrefixOf s then .ok (.bool false, s.drop 5, pos + 5)
        else
          match matchNumber s pos with
          | some r => .ok r
          | none =>
            if ("NaN".toList).isPrefixOf s then .ok (.float ("NaN".toList), s.drop 3, pos + 3)
            else if ("Infinity".toList).isPrefixOf s then
              .ok (.float ("Infinity".toList), s.drop 8, pos + 8)
            else if ("-Infinity".toList).isPrefixOf s then
              .ok (.float ("-Infinity".toList), s.drop 9, pos + 9)
            else .error ("Expecting value", pos)
    | .objStart =>
      -- JSONObject: conditional whitespace skip, then `}` (empty object),
      -- `"` (first key) or the property-name error at the skipped position.
      let w := skipWsList s pos
      match w.1 with
      | '\x7d' :: r => .ok (.obj [], r, w.2 + 1)
      | '"' :: r => jsonScan fuel (.objLoop []) r (w.2 + 1)
      | _ => .error ("Expecting property name enclosed in double quotes", w.2)
    | .objLoop acc =>
      -- one member: key (opening quote already consumed), `:`, value, then
      -- `}` to finish or `,` and the next key.
      match scanString (pos - 1) s pos with
      | .error e => .error e
      | .ok (key, s1, p1) =>
        let w1 := if s1.head? = some ':' then (s1, p1) else skipWsList s1 p1
        match w1.1 with
        | ':' :: s2 =>
          let w2 := skipWsList s2 (w1.2 + 1)
          match jsonScan fuel .value w2.1 w2.2 with
          | .error e => .error e
          | .ok (value, s3, p3) =>
            let w3 := skipWsList s3 p3
            match w3.1 with
            | '\x7d' :: r => .ok (.obj (acc ++ [(key, value)]), r, w3.2 + 1)
            | ',' :: r =>
              let w4 := skipWsList r (w3.2 + 1)
              match w4.1 with
              | '"' :: r2 => jsonScan fuel (.objLoop (acc ++ [(key, value)])) r2 (w4.2 + 1)
              | _ => .error ("Expecting property name enclosed in double quotes", w4.2)
            | _ => .error (expectingComma, w3.2)
        | _ => .error (expectingColon, w1.2)
    | .arrStart =>
      let w := skipWsList s pos
      match w.1 with
      | ']' :: r => .ok (.arr [], r, w.2 + 1)
      | _ => jsonScan fuel (.arrLoop []) w.1 w.2
    | .arrLoop acc =>
      match jsonScan fuel .value s pos with
      | .error e => .error e
      | .ok (value, s1, p1) =>
        let w1 := skipWsList s1 p1
        match w1.1 with
        | ']' :: r => .ok (.arr (acc ++ [value]), r, w1.2 + 1)
        | ',' :: r =>
          let w2 := skipWsList r (w1.2 + 1)
          jsonScan fuel (.arrLoop (acc ++ [value])) w2.1 w2.2
        | _ => .error (expectingComma, w1.2)

/-- `JSONDecoder.raw_decode` preceded by `decode`'s leading-whitespace skip.
The fuel `(|s| + 1) * 4` always suffices: each scanner call either consumes
input or immediately delegates, with at most 3 calls per consumed
character plus a constant. -/
def rawDecode (s : List Char) : Except (String × Nat) (PyJson × List Char × Nat) :=
  let w := skipWsList s 0
  jsonScan ((s.length + 1) * 4) .value w.1 w.2

/-- `json.loads(s)`: decode one value, then reject trailing non-whitespace
(`"Extra data"`).  Any raised `JSONDecodeError` carries the whole input as
its `doc`. -/
def jsonLoads (s : List Char) : Except PyDecodeError PyJson :=
  match rawDecode s with
  | .error e => .error ⟨e.1, e.2, s⟩
  | .ok (v, rest, pos) =>
    let w := skipWsList rest pos
    match w.1 with
    | [] => .ok v
    | _ => .error ⟨"Extra data", w.2, s⟩

/-! ## generate_json recovery ladder (`AnthropicService.generate_json`)

The post-processing applied to the raw model response, transcribed stage by
stage: code-fence stripping, the two trailing-comma substitutions, the
`fix_json_strings` state machine, the property-name quoting substitutions
(run only when the second decode error mentions `Expecting property name`),
and the last-resort regex extraction. -/

/-- Lines 313-322: `strip`, drop a leading ` ```json ` or ` ``` ` fence
marker, drop a trailing ` ``` `, `strip` again. -/
def stripCodeFences (response : List Char) : List Char :=
  let response := stripList response
  let response :=
    if ("```json".toList).isPrefixOf response then response.drop 7 else response
  let response :=
    if ("```".toList).isPrefixOf response then response.drop 3 else response
  let response :=
    if ("```".toList).isSuffixOf response then response.take (response.length - 3)
    else response
  stripList response

/-- Helper for the trailing-comma substitution: after a `,`, greedily match
`\s*` and then the closing delimiter; returns the rest after the delimiter
when the pattern completes. -/
def matchWsThenClose (close : Char) : List Char → Option (List Char)
  | [] => none
  | c :: rest =>
    if c = close then some rest
    else if pyIsSpace c then matchWsThenClose close rest
    else none

/-- Fuel-indexed single pass of `re.sub(r',\s*CLOSE', 'CLOSE', s)`
(left-to-right, non-overlapping, as `re.sub` scans). -/
def subTrailingCommaGo (close : Char) : Nat → List Char → List Char
  | 0, s => s
  | _ + 1, [] => []
  | fuel + 1, c :: rest =>
    if c = ',' then
      match matchWsThenClose close rest with
      | some rest2 => close :: subTrailingCommaGo close fuel rest2
      | none => c :: subTrailingCommaGo close fuel rest
    else c :: subTrailingCommaGo close fuel rest

/-- `re.sub(r',\s*}', '}', s)` (with `close := '}'`) and
`re.sub(r',\s*]', ']', s)` (with `close := ']'`). -/
def subTrailingComma (close : Char) (s : List Char) : List Char :=
  subTrailingCommaGo close s.length s

/-- The `fix_json_strings` character state machine of `generate_json`
(in-string / escape-pending tracking; escapes literal newline, carriage
return and tab inside string literals; closes an unterminated trailing
string). -/
def fixJsonStringsGo : List Char → Bool → Bool → List Char
  | [], in_string, _ => if in_string then ['"'] else []
  | c :: rest, in_string, escape_next =>
    if escape_next then c :: fixJsonStringsGo rest in_string false
    else if c = '\\' then c :: fixJsonStringsGo rest in_string true
    else if c = '"' then c :: fixJsonStringsGo rest (!in_string) false
    else if in_string then
      if c = '\n' then '\\' :: 'n' :: fixJsonStringsGo rest in_string false
      else if c = '\r' then '\\' :: 'r' :: fixJsonStringsGo rest in_string false
      else if c = '\t' then '\\' :: 't' :: fixJsonStringsGo rest in_string false
      else c :: fixJsonStringsGo rest in_string false
    else c :: fixJsonStringsGo rest in_string false

/-- `fix_json_strings(json_str)` (the `try` around it never fires: the
function is total). -/
def fix_json_strings (s : List Char) : List Char := fixJsonStringsGo s false false

/-- First character of a Python identifier (`[a-zA-Z_]`). -/
def isIdentStart (c : Char) : Bool :=
  (decide ('a' ≤ c) && decide (c ≤ 'z')) || (decide ('A' ≤ c) && decide (c ≤ 'Z')) || c = '_'

/-- Word character (regex `\w`, ASCII). -/
def isWordChar (c : Char) : Bool := isIdentStart c || isDigitChar c

/-- After a `{` or `,`: match `\s*([a-zA-Z_]\w*)\s*:`; returns the captured
identifier and the rest after the colon. -/
def matchPropName (s : List Char) : Option (List Char × List Char) :=
  match s.dropWhile pyIsSpace with
  | c :: rest =>
    if isIdentStart c then
      let ident := c :: rest.takeWhile isWordChar
      match (rest.dropWhile isWordChar).dropWhile pyIsSpace with
      | ':' :: rest4 => some (ident, rest4)
      | _ => none
    else none
  | [] => none

/-- Fuel-indexed single pass of
`re.sub(r'OPENER\s*([a-zA-Z_]\w*)\s*:', r'OPENER "\1":', s)` — the
replacement drops the matched whitespace, exactly as the replacement
template does. -/
def subPropNamesGo (opener : Char) : Nat → List Char → List Char
  | 0, s => s
  | _ + 1, [] => []
  | fuel + 1, c :: rest =>
    if c = opener then
      match matchPropName rest with
      | some (ident, rest4) =>
        opener :: ' ' :: '"' :: (ident ++ '"' :: ':' :: subPropNamesGo opener fuel rest4)
      | none => c :: subPropNamesGo opener fuel rest
    else c :: subPropNamesGo opener fuel rest

/-- Property-name quoting substitution for one opener (`{` or `,`). -/
def subPropNames (opener : Char) (s : List Char) : List Char :=
  subPropNamesGo opener s.length s

/-- Index of the last `}` in the list, if any. -/
def lastClosePos : List Char → Option Nat
  | [] => none
  | c :: rest =>
    match lastClosePos rest with
    | some i => some (i + 1)
    | none => if c = '\x7d' then some 0 else none

/-- `re.search(r'(\{[\s\S]*\})', s)`: the engine scans start positions left
to right; at a `{` the greedy `[\s\S]*` backtracks to the last `}` of the
remainder; if the remainder has no `}` the engine moves on. -/
def reSearchBrace : List Char → Option (List Char)
  | [] => none
  | c :: rest =>
    if c = '\x7b' then
      match lastClosePos rest with
      | some i => some (c :: rest.take (i + 1))
      | none => reSearchBrace rest
    else reSearchBrace rest

/-- Index of the first `{` in the list, if any. -/
def firstOpenIdx : List Char → Option Nat
  | [] => none
  | c :: rest =>
    if c = '\x7b' then some 0 else (firstOpenIdx rest).map (· + 1)

/-- Closed form of `reSearchBrace`: the span runs from the first `{` to the
last `}` of the text, provided that `{` precedes that `}`. -/
def firstToLastSpan (s : List Char) : Option (List Char) :=
  match firstOpenIdx s, lastClosePos s with
  | some i, some j => if i < j then some ((s.drop i).take (j - i + 1)) else none
  | _, _ => none

/-- Modelled from the spec: "locate the first top-level `{...}`-balanced
span in the text" — scan to the first `{`, then track brace depth until it
returns to zero. -/
def firstBalancedSpanGo : List Char → Nat → List Char → Option (List Char)
  | [], _, _ => none
  | c :: rest, depth, acc =>
    if c = '\x7b' then firstBalancedSpanGo rest (depth + 1) (acc ++ [c])
    else if c = '\x7d' then
      match depth with
      | 0 => none
      | 1 => some (acc ++ [c])
      | d + 2 => firstBalancedSpanGo rest (d + 1) (acc ++ [c])
    else firstBalancedSpanGo rest depth (if acc.isEmpty then acc else acc ++ [c])

/-- Modelled from the spec: the first top-level brace-balanced `{...}` span. -/
def firstBalancedSpan (s : List Char) : Option (List Char) :=
  firstBalancedSpanGo (s.dropWhile (fun c => c ≠ '\x7b')) 0 []

/-- Lines 411-433 of `generate_json`: the strategies run after the second
decode failure `e2` — property-name quoting (only when the error message
mentions `Expecting property name`), last-resort regex extraction, and on
total failure `raise e2`. -/
def generateJsonTail (e2 : PyDecodeError) (response : List Char) :
    Except PyDecodeError PyJson :=
  let quoteFix : List Char × Option PyJson :=
    if containsSub ("Expecting property name".toList) e2.msg.toList then
      let r := subPropNames ',' (subPropNames '\x7b' response)
      match jsonLoads r with
      | .ok v => (r, some v)
      | .error _ => (r, none)
    else (response, none)
  match quoteFix.2 with
  | some v => .ok v
  | none =>
    match reSearchBrace quoteFix.1 with
    | some span =>
      match jsonLoads span with
      | .ok v => .ok v
      | .error _ => .error e2
    | none => .error e2

/-- The whole post-processing of `AnthropicService.generate_json` applied to
the raw response text (lines 312-433): fence stripping, strict parse, the
trailing-comma and string repairs, second parse, then `generateJsonTail`.
The 100-char context snippet around the first error is only logged (lines
329-330), so it does not appear in the result. -/
def generate_json_post (raw : List Char) : Except PyDecodeError PyJson :=
  let response := stripCodeFences raw
  match jsonLoads response with
  | .ok v => .ok v
  | .error _e =>
    let response := subTrailingComma '\x7d' response
    let response := subTrailingComma ']' response
    let response := fix_json_strings response
    match jsonLoads response with
    | .ok v => .ok v
    | .error e2 => generateJsonTail e2 response

/-! ## advanced_orchestrator.py -/

/-- `_validate_output`'s report: `{"valid", "issues", "metrics": {...}}`. -/
structure ValidationReport where
  valid : Bool
  issues : List String
  duration : Nat
  scenes : Nat
  animations : Nat
  code_lines : Nat
deriving Repr, DecidableEq

/-- The `required_methods` list checked by `_validate_output`. -/
def REQUIRED_METHODS : List String :=
  ["construct", "play", "wait", "Create", "Write", "Transform"]

/-- The `for method in required_methods: if method not in code` loop. -/
def requiredMethodIssues (code : List Char) : List String :=
  REQUIRED_METHODS.foldr
    (fun m acc =>
      (if containsSub m.toList code then [] else ["Missing required method: " ++ m]) ++ acc)
    []

/-- `AdvancedManimExplainerAgent._validate_output(content, visual_design,
code, requirements)` (with `duration_minutes = requirements["duration"] // 60`
already extracted by the caller). -/
def validate_output (content : ContentRecord) (visual_design : VisualDesign)
    (code : String) (duration_minutes : Nat) : ValidationReport :=
  let codeChars := code.toList
  let issues : List String :=
    (validate_content_quality content duration_minutes).2
    ++ (validate_visual_quality visual_design duration_minutes).2
    ++ (if codeChars.isEmpty || (stripList codeChars).length < 100 then
          ["Generated code is too short or missing"]
        else [])
    ++ requiredMethodIssues codeChars
  { valid := issues.length = 0
    issues := issues
    duration := content.total_duration
    scenes := visual_design.scenes.length
    animations := (visual_design.scenes.map (fun s => s.animations.length)).sum
    code_lines := codeChars.count '\n' }

/-- The external generation collaborators of one run, modelled as oracles
indexed by the number of completed refinement passes (each pass makes one
content call and, on success, one visual call, one code call and — on the
fast path — one skeleton call; the payloads handed to them do not influence
the control flow being verified). -/
structure StageOracles where
  contentAt : Nat → ContentRecord
  visualAt : Nat → VisualDesign
  skeletonAt : Nat → String
  codeAt : Nat → String

/-- Outcome of the `while iteration < self.max_iterations` loop of
`create_video`, run under a fuel bound on the number of loop passes:
`returned` is the `return current_code` inside the loop, `exhausted` the
best-effort return after the loop, and `outOfFuel n` means the loop was
still running after `n` passes (each of which invoked the content stage). -/
inductive RunOutcome where
  | returned (code : String) (report : ValidationReport)
  | exhausted (code : Option String)
  | outOfFuel (contentCalls : Nat)
deriving Repr, DecidableEq

/-- `duration_minutes <= 3 → 1; <= 10 → 2; else 3` (lines 66-71). -/
def maxIterationsFor (duration_minutes : Nat) : Nat :=
  if duration_minutes ≤ 3 then 1 else if duration_minutes ≤ 10 then 2 else 3

/-- The body of `create_video`'s refinement loop (lines 87-203), one fuel
unit per loop pass.  `requirements["duration"] = duration_minutes * 60` and
each validation call divides it back by 60, as in the source.  When content
validation fails the source executes `continue` — the iteration index is
NOT incremented anywhere in the loop, so the recursive call keeps the same
`iteration`.  Once code is produced, `_validate_output`'s report is computed
and logged but `return current_code` runs unconditionally. -/
def createVideoGo (O : StageOracles) (duration_minutes max_iterations : Nat) :
    Nat → Nat → Nat → Option String → RunOutcome
  | 0, _, contentCalls, _ => .outOfFuel contentCalls
  | fuel + 1, iteration, contentCalls, current_code =>
    if iteration < max_iterations then
      let requirementsDuration := duration_minutes * 60
      let current_content := O.contentAt contentCalls
      if (validate_content_quality current_content (requirementsDuration / 60)).1 = false then
        createVideoGo O duration_minutes max_iterations fuel iteration
          (contentCalls + 1) current_code
      else
        let current_visual := O.visualAt contentCalls
        let new_code :=
          if duration_minutes ≤ 5 ∧ iteration = 0 then
            -- fast path: visual-design and code-skeleton tasks run
            -- concurrently (joined as in `fastPathJoin` below), then the
            -- final code call receives the merged visual+skeleton payload
            let _skeleton := O.skeletonAt contentCalls
            O.codeAt contentCalls
          else O.codeAt contentCalls
        let report := validate_output current_content current_visual new_code
          (requirementsDuration / 60)
        .returned new_code report
    else .exhausted current_code

/-- `create_video(user_prompt, ..., duration_minutes, ...)`: selects
`max_iterations` from the duration and runs the loop from
`iteration = 0`, `current_code = None`. -/
def create_video (O : StageOracles) (duration_minutes fuel : Nat) : RunOutcome :=
  createVideoGo O duration_minutes (maxIterationsFor duration_minutes) fuel 0 0 none

/-! ## Fast-path concurrency (`create_video` lines 109-134 and
`_generate_initial_code_structure` lines 350-379) -/

/-- The skeleton task's result record (`{"structure": response}`). -/
structure CodeStructure where
  structureText : String
deriving Repr, DecidableEq

/-- `_generate_initial_code_structure`: the generation call's outcome is
wrapped in `try/except` — any exception is swallowed and replaced by
`{"structure": ""}`. -/
def generateInitialCodeStructure (genResult : Except String String) : CodeStructure :=
  match genResult with
  | .ok response => ⟨response⟩
  | .error _ => ⟨""⟩

/-- `await asyncio.gather(a, b)` with the default
`return_exceptions=False`: the join fails as soon as either task fails. -/
def gatherFailFast {α β : Type} (a : Except String α) (b : Except String β) :
    Except String (α × β) :=
  match a, b with
  | .error e, _ => .error e
  | .ok _, .error e => .error e
  | .ok x, .ok y => .ok (x, y)

/-- The fast path's join: the visual task propagates its failure through
`gather`, but the skeleton task never fails — its generation error is
absorbed by `generateInitialCodeStructure`. -/
def fastPathJoin (visualTask : Except String VisualDesign)
    (skeletonGen : Except String String) :
    Except String (VisualDesign × CodeStructure) :=
  gatherFailFast visualTask (.ok (generateInitialCodeStructure skeletonGen))

/-! ## api_server.py render recovery loop (`process_generation` lines 396-433) -/

/-- State after the `while render_attempt < max_render_attempts` loop:
the rendered path (if any attempt succeeded), `last_error`, and the number
of render invocations made. -/
structure RenderOutcome where
  output_path : Option String
  last_error : Option String
  renderCalls : Nat
deriving Repr, DecidableEq

/-- The render-recovery loop, structurally recursive on the remaining
attempts (`remaining = max_render_attempts - render_attempt`).  `render` is
the external `render_manim_video` collaborator (indexed by the invocation
count and given the currently persisted source), `fix` is
`fix_manim_errors(code, error)`.  After a failure the attempt counter is
incremented and the patch is applied (and persisted) only while
`render_attempt < max_render_attempts` still holds. -/
def renderRecoveryGo (render : Nat → String → Except String String)
    (fix : String → String → String) :
    Nat → Nat → String → Option String → RenderOutcome
  | 0, calls, _, last_error => ⟨none, last_error, calls⟩
  | remaining + 1, calls, code, last_error =>
    match render calls code with
    | .ok path => ⟨some path, last_error, calls + 1⟩
    | .error e =>
      let code2 := if 0 < remaining then fix code e else code
      renderRecoveryGo render fix remaining (calls + 1) code2 (some e)

/-- The loop started with `render_attempt = 0`, `output_path = None`,
`last_error = None`. -/
def renderWithRecovery (render : Nat → String → Except String String)
    (fix : String → String → String) (max_render_attempts : Nat)
    (code : String) : RenderOutcome :=
  renderRecoveryGo render fix max_render_attempts 0 code none

/-- The message of the exception raised at line 433 (`f"Failed to render
after {max_render_attempts} attempts. Last error: {last_error}"`). -/
def exhaustMessage (max_render_attempts : Nat) (last_error : Option String) : String :=
  "Failed to render after " ++ toString max_render_attempts
    ++ " attempts. Last error: "
    ++ (match last_error with | some e => e | none => "None")

/-- Lines 396-433 as a whole: run the recovery loop with
`max_render_attempts = 3`; if `output_path is None` afterwards, raise the
exhaustion error. -/
def processRender (render : Nat → String → Except String String)
    (fix : String → String → String) (code : String) : Except String String :=
  match renderWithRecovery render fix 3 code with
  | ⟨some path, _, _⟩ => .ok path
  | ⟨none, last_error, _⟩ => .error (exhaustMessage 3 last_error)

/-! ## Helper lemmas -/

/-- Truncation toward zero is monotone. -/
theorem pyInt_mono {q r : ℚ} (h : q ≤ r) : pyInt q ≤ pyInt r := by
  unfold pyInt
  by_cases hq : 0 ≤ q
  · rw [if_pos hq, if_pos (le_trans hq h)]
    exact Int.floor_le_floor h
  · rw [if_neg hq]
    by_cases hr : 0 ≤ r
    · rw [if_pos hr]
      have h1 : (⌈q⌉ : Int) ≤ 0 :=
        Int.ceil_le.mpr (by exact_mod_cast le_of_lt (not_le.mp hq))
      have h2 : (0 : Int) ≤ ⌊r⌋ := Int.floor_nonneg.mpr hr
      omega
    · rw [if_neg hr]
      exact Int.ceil_le_ceil h

/-- Truncation is the identity on integers. -/
theorem pyInt_intCast (n : Int) : pyInt (n : ℚ) = n := by
  unfold pyInt
  split_ifs with h
  · exact Int.floor_intCast n
  · exact Int.ceil_intCast n

/-- Every entry of `DURATION_MULTIPLIERS` is `1.0`, so the selection loop
always yields `1`. -/
theorem durationMultiplier_eq_one (d : Nat) : durationMultiplier d = 1 := by
  unfold durationMultiplier DURATION_MULTIPLIERS
  simp only [durationMultiplierLoop]
  split_ifs <;> rfl

/-- Every `TASK_LIMITS` entry has a non-negative base factor and per-minute
increment. -/
theorem task_limits_nonneg (t : String) (tc : TaskLimit)
    (h : TASK_LIMITS.lookup t = some tc) : 0 ≤ tc.base ∧ (0 : Int) ≤ tc.per_minute := by
  unfold TASK_LIMITS at h
  simp only [List.lookup] at h
  cases h1 : t == "content" <;> rw [h1] at h
  · cases h2 : t == "visual" <;> rw [h2] at h
    · cases h3 : t == "code" <;> rw [h3] at h
      · simp at h
      · simp at h
        rw [← h]
        constructor <;> norm_num
    · simp at h
      rw [← h]
      constructor <;> norm_num
  · simp at h
    rw [← h]
    constructor <;> norm_num

/-- Every model row (including the sonnet fallback) has
`minimum ≤ maxTokens`. -/
theorem modelConfig_min_le_max (m : String) :
    ((MODEL_LIMITS.lookup m).getD sonnetLimits).minimum
      ≤ ((MODEL_LIMITS.lookup m).getD sonnetLimits).maxTokens := by
  unfold MODEL_LIMITS
  simp only [List.lookup]
  cases m == "opus"
  · cases m == "sonnet" <;> decide
  · show opusLimits.minimum ≤ opusLimits.maxTokens
    decide

/-- `max_iterations` is always positive (it is 1, 2 or 3). -/
theorem maxIterationsFor_pos (d : Nat) : 0 < maxIterationsFor d := by
  unfold maxIterationsFor
  split_ifs <;> norm_num

/-- Any error raised by `jsonLoads s` carries the whole input `s` as its
document. -/
theorem jsonLoads_doc (s : List Char) (e : PyDecodeError)
    (h : jsonLoads s = .error e) : e.doc = s := by
  unfold jsonLoads at h
  rcases hr : rawDecode s with he | ⟨v, rest, pos⟩ <;> rw [hr] at h
  · cases h; rfl
  · dsimp only at h
    rcases hw : (skipWsList rest pos).1 with _ | ⟨c, w⟩ <;> rw [hw] at h
    · cases h
    · cases h; rfl

/-! ## C2: duration-profile invariant -/

/-- C2 counterexample: at a requested duration of 11 minutes the `>10`
bucket prescribes at least 8 sections of at least 90 s each — 720 s, which
exceeds the requested 660 s.  This falsifies the claimed invariant that the
sum of minimum section durations never exceeds the requested total
duration. -/
theorem C2_counterexample :
    0 < 11
    ∧ (get_quality_standards 11).min_sections *
        (get_quality_standards 11).section_duration.1 = 720
    ∧ ¬ ((get_quality_standards 11).min_sections *
        (get_quality_standards 11).section_duration.1 ≤ 11 * 60) := by
  exact ⟨by norm_num, by decide, by decide⟩

/-- C2 (amended): for every requested duration `d > 0` other than 11
minutes, all derived ranges of the duration profile are non-negative and
the minimum section count times the minimum per-section duration does not
exceed `d` in seconds.  (At `d = 11` the bound fails, see the
counterexample.) -/
theorem C2_profile_bounds (d : Nat) (hd : 0 < d) (hne : d ≠ 11) :
    0 ≤ (get_quality_standards d).transition_time
    ∧ (get_quality_standards d).min_sections *
        (get_quality_standards d).section_duration.1 ≤ d * 60 := by
  unfold get_quality_standards
  split_ifs with h1 h2 h3 h4 <;> refine ⟨by norm_num, ?_⟩ <;> dsimp only <;> omega

/-- C2 witness at `d = 12`. -/
theorem C2_profile_bounds_witness :
    0 ≤ (get_quality_standards 12).transition_time
    ∧ (get_quality_standards 12).min_sections *
        (get_quality_standards 12).section_duration.1 ≤ 12 * 60 :=
  C2_profile_bounds 12 (by norm_num) (by norm_num)

/-! ## C4: content validator checks -/

/-- A content record whose ten sections are all empty (no text, no
examples) but whose totals satisfy the two implemented checks. -/
def c4Record : ContentRecord :=
  ⟨1000, List.replicate 10 ⟨"s", "", [], 0⟩⟩

/-- C4 counterexample: `validate_content_quality` reports this record VALID
at 3 minutes although every section has empty content and declares no
example — the per-section length and example checks claimed for the content
validator are not performed by it. -/
theorem C4_counterexample :
    (validate_content_quality c4Record 3).1 = true
    ∧ c4Record.sections.length = 10
    ∧ ∀ s ∈ c4Record.sections, s.content = "" ∧ s.examples = [] := by
  refine ⟨by decide, by decide, ?_⟩
  decide

/-- C4 (amended): the content validator implements exactly two checks — it
is valid iff the total declared duration and the section count meet the
bucket minima, and each failing check contributes exactly one issue; the
per-section content-length and example checks are not part of this
validator. -/
theorem C4_content_validator_two_checks (content : ContentRecord) (d : Nat) :
    ((validate_content_quality content d).1 = true ↔
      (get_quality_standards d).min_duration ≤ content.total_duration
      ∧ (get_quality_standards d).min_sections ≤ content.sections.length)
    ∧ (validate_content_quality content d).2.length =
        ((if content.total_duration < (get_quality_standards d).min_duration
          then 1 else 0)
        + (if content.sections.length < (get_quality_standards d).min_sections
          then 1 else 0)) := by
  by_cases h1 : content.total_duration < (get_quality_standards d).min_duration
    <;> by_cases h2 : content.sections.length < (get_quality_standards d).min_sections
    <;> constructor
    <;> (simp [validate_content_quality, h1, h2]; try omega)

/-! ## C5: allocator monotonicity and clamping -/

/-- C5: for fixed model class, task and complexity, `get_optimal_tokens` is
non-decreasing in the duration, and for every input tuple the result lies
within `[minimum, maxTokens]` of the (possibly fallen-back) model row. -/
theorem C5_allocator_monotone_and_clamped :
    (∀ (model task complexity : String) (d1 d2 : Nat), d1 ≤ d2 →
      get_optimal_tokens model d1 task complexity
        ≤ get_optimal_tokens model d2 task complexity)
    ∧ (∀ (model task complexity : String) (d : Nat),
      ((MODEL_LIMITS.lookup model).getD sonnetLimits).minimum
          ≤ get_optimal_tokens model d task complexity
      ∧ get_optimal_tokens model d task complexity
          ≤ ((MODEL_LIMITS.lookup model).getD sonnetLimits).maxTokens) := by
  constructor
  · intro m t c d1 d2 h
    simp only [get_optimal_tokens, durationMultiplier_eq_one, mul_one]
    rcases htc : TASK_LIMITS.lookup t with _ | tc
    · exact le_rfl
    · dsimp only
      obtain ⟨hb0, hpm⟩ := task_limits_nonneg t tc htc
      have hd : ((d1 : ℚ)) ≤ (d2 : ℚ) := by exact_mod_cast h
      have hpmq : (0 : ℚ) ≤ (tc.per_minute : ℚ) := by exact_mod_cast hpm
      have hstep := mul_le_mul_of_nonneg_left hd hpmq
      rw [pyInt_intCast, pyInt_intCast]
      apply max_le_max (le_refl _)
      apply min_le_min _ (le_refl _)
      split_ifs
      · apply pyInt_mono
        apply mul_le_mul_of_nonneg_right _ (by norm_num)
        rw [Int.cast_le]
        apply pyInt_mono
        linarith
      · apply pyInt_mono
        apply mul_le_mul_of_nonneg_right _ (by norm_num)
        rw [Int.cast_le]
        apply pyInt_mono
        linarith
      · apply pyInt_mono
        linarith
  · intro m t c d
    simp only [get_optimal_tokens]
    exact ⟨le_max_left _ _, max_le (modelConfig_min_le_max m) (min_le_right _ _)⟩

/-- C5 witness: a concrete monotonicity instance with the hypothesis
`3 ≤ 5` discharged. -/
theorem C5_allocator_witness :
    get_optimal_tokens "opus" 3 "code" "normal"
      ≤ get_optimal_tokens "opus" 5 "code" "normal" :=
  C5_allocator_monotone_and_clamped.1 "opus" "code" "normal" 3 5 (by norm_num)

/-! ## C10: unknown model classes fall back to the sonnet row -/

/-- C10: for every model string other than `"opus"` and `"sonnet"`
(including the `"gpt4"` label passed by `OpenAIService.generate`),
`get_optimal_tokens` returns exactly its `"sonnet"` result, because
`MODEL_LIMITS.get(model, MODEL_LIMITS["sonnet"])` silently falls back. -/
theorem C10_unknown_model_is_sonnet (model : String)
    (h1 : model ≠ "opus") (h2 : model ≠ "sonnet")
    (d : Nat) (task complexity : String) :
    get_optimal_tokens model d task complexity
      = get_optimal_tokens "sonnet" d task complexity := by
  have e1 : (model == "opus") = false := beq_eq_false_iff_ne.mpr h1
  have e2 : (model == "sonnet") = false := beq_eq_false_iff_ne.mpr h2
  have hl : MODEL_LIMITS.lookup model = none := by
    unfold MODEL_LIMITS
    simp only [List.lookup]
    rw [e1, e2]
  unfold get_optimal_tokens
  rw [hl]
  rfl

/-- C10 witness at the `"gpt4"` label. -/
theorem C10_unknown_model_witness :
    get_optimal_tokens "gpt4" 3 "content" "normal"
      = get_optimal_tokens "sonnet" 3 "content" "normal" :=
  C10_unknown_model_is_sonnet "gpt4" (by decide) (by decide) 3 "content" "normal"

/-! ## C1: the refinement loop never increments its index -/

/-- C1 (code bug): in `create_video` the `continue` taken when content
validation fails does not increment `iteration` — no statement in the loop
does — so with a content stage whose output never passes validation the
loop runs forever: for EVERY fuel bound the run is still looping, having
invoked the content stage `fuel` times (unbounded, far beyond
`max_iterations`), and never returns. -/
theorem C1_refinement_loop_diverges (O : StageOracles) (d : Nat)
    (h : ∀ k, (validate_content_quality (O.contentAt k) ((d * 60) / 60)).1 = false)
    (fuel : Nat) : create_video O d fuel = .outOfFuel fuel := by
  unfold create_video
  have hpos := maxIterationsFor_pos d
  suffices H : ∀ fuel calls cur,
      createVideoGo O d (maxIterationsFor d) fuel 0 calls cur
        = .outOfFuel (calls + fuel) by
    simpa using H fuel 0 none
  intro fuel
  induction fuel with
  | zero =>
    intro calls cur
    simp [createVideoGo]
  | succ n ih =>
    intro calls cur
    simp only [createVideoGo]
    rw [if_pos hpos, if_pos (h calls), ih (calls + 1) cur]
    congr 1
    omega

/-- Content stage that always fails validation (empty record), with trivial
other stages. -/
def c1Oracles : StageOracles :=
  ⟨fun _ => ⟨0, []⟩, fun _ => ⟨[]⟩, fun _ => "", fun _ => ""⟩

/-- C1 witness: a 2-minute request (so `max_iterations = 1`) with
persistently invalid content is still looping after 5 passes. -/
theorem C1_refinement_loop_diverges_witness :
    create_video c1Oracles 2 5 = .outOfFuel 5 :=
  C1_refinement_loop_diverges c1Oracles 2 (fun _ => rfl) 5

/-! ## C6: produced code is returned regardless of combined validation -/

/-- C6: as soon as the content stage passes validation on the first pass,
`create_video` returns the code produced in that pass together with the
combined report — with NO hypothesis about that report's outcome: a failing
combined content+plan+code validation is recorded but can neither retry nor
block the return.  (Only the content check at step b can restart a pass.) -/
theorem C6_code_returned_regardless_of_validation (O : StageOracles) (d fuel : Nat)
    (h : (validate_content_quality (O.contentAt 0) ((d * 60) / 60)).1 = true) :
    create_video O d (fuel + 1) =
      .returned (O.codeAt 0)
        (validate_output (O.contentAt 0) (O.visualAt 0) (O.codeAt 0)
          ((d * 60) / 60)) := by
  unfold create_video
  simp only [createVideoGo]
  have h' : ¬ ((validate_content_quality (O.contentAt 0) ((d * 60) / 60)).1 = false) := by
    rw [h]
    decide
  rw [if_pos (maxIterationsFor_pos d), if_neg h']
  split_ifs <;> rfl

/-- A content record satisfying both implemented content checks at 3
minutes. -/
def c6Content : ContentRecord :=
  ⟨1000, List.replicate 10 ⟨"s", "body", ["e"], 30⟩⟩

/-- Oracles whose content passes but whose visual design and code make the
combined validation fail (no scenes, empty code). -/
def c6Oracles : StageOracles :=
  ⟨fun _ => c6Content, fun _ => ⟨[]⟩, fun _ => "", fun _ => ""⟩

/-- C6 witness: the combined report is invalid, yet the code is returned. -/
theorem C6_code_returned_witness :
    (validate_output c6Content ⟨[]⟩ "" ((3 * 60) / 60)).valid = false
    ∧ create_video c6Oracles 3 1 =
        .returned "" (validate_output c6Content ⟨[]⟩ "" ((3 * 60) / 60)) :=
  ⟨by decide, C6_code_returned_regardless_of_validation c6Oracles 3 0 (by decide)⟩

/-! ## C7: render recovery exhaustion after exactly 3 attempts -/

/-- Under a renderer that fails every invocation, the recovery loop with
`remaining` attempts left makes exactly `remaining` further render calls and
ends with the last reason recorded. -/
theorem renderRecoveryGo_allfail (render : Nat → String → Except String String)
    (fix : String → String → String) (reasons : Nat → String)
    (h : ∀ i c, render i c = .error (reasons i)) :
    ∀ remaining calls code le, 0 < remaining →
      renderRecoveryGo render fix remaining calls code le
        = ⟨none, some (reasons (calls + remaining - 1)), calls + remaining⟩ := by
  intro remaining
  induction remaining with
  | zero =>
    intro _ _ _ h0
    exact absurd h0 (by omega)
  | succ n ih =>
    intro calls code le _
    simp only [renderRecoveryGo, h]
    cases n with
    | zero =>
      simp [renderRecoveryGo]
    | succ m =>
      rw [if_pos (Nat.succ_pos m)]
      rw [ih (calls + 1) (fix code (reasons calls)) (some (reasons calls)) (Nat.succ_pos m)]
      have e1 : calls + 1 + (m + 1) - 1 = calls + (m + 1 + 1) - 1 := by omega
      have e2 : calls + 1 + (m + 1) = calls + (m + 1 + 1) := by omega
      rw [e1, e2]

/-- C7: with `max_render_attempts = 3` and a renderer failing every attempt
(whatever the patch function does — in particular when no fix pattern
matches and the patch is a no-op), the loop makes exactly 3 render calls,
records the third attempt's reason as `last_error`, and the raised
exhaustion error's message names the 3 attempts and that third reason. -/
theorem C7_render_exhaustion (render : Nat → String → Except String String)
    (fix : String → String → String) (reasons : Nat → String) (code : String)
    (h : ∀ i c, render i c = .error (reasons i)) :
    renderWithRecovery render fix 3 code = ⟨none, some (reasons 2), 3⟩
    ∧ processRender render fix code =
        .error (exhaustMessage 3 (some (reasons 2))) := by
  have ho : renderWithRecovery render fix 3 code = ⟨none, some (reasons 2), 3⟩ := by
    unfold renderWithRecovery
    rw [renderRecoveryGo_allfail render fix reasons h 3 0 code none (by norm_num)]
  refine ⟨ho, ?_⟩
  unfold processRender
  rw [ho]

/-- C7 witness with a concrete always-failing renderer and identity patch. -/
theorem C7_render_exhaustion_witness :
    renderWithRecovery (fun i _ => .error (toString i)) (fun c _ => c) 3 "src"
        = ⟨none, some (toString 2), 3⟩
    ∧ processRender (fun i _ => .error (toString i)) (fun c _ => c) "src"
        = .error (exhaustMessage 3 (some (toString 2))) :=
  C7_render_exhaustion (fun i _ => .error (toString i)) (fun c _ => c)
    toString "src" (fun _ _ => rfl)

/-! ## C8: fast-path join asymmetry -/

/-- C8 counterexample: a failing Code-Skeleton generation does NOT propagate
out of the fast-path join — `_generate_initial_code_structure` swallows the
exception and the join succeeds with an empty structure, contradicting the
claim that neither task's failure is absorbed into a success value. -/
theorem C8_counterexample :
    fastPathJoin (.ok ⟨[]⟩) (.error "skeleton generation failed")
      = .ok (⟨[]⟩, ⟨""⟩) := rfl

/-- C8 (amended): the fail-fast `gather` join propagates a Visual-Plan task
failure, but a Code-Skeleton generation failure is caught inside the task
and replaced by `{"structure": ""}`, so only the visual task can fail the
run. -/
theorem C8_join_asymmetry :
    (∀ (e : String) (skel : Except String String),
      fastPathJoin (.error e) skel = .error e)
    ∧ (∀ (v : VisualDesign) (e : String),
      fastPathJoin (.ok v) (.error e) = .ok (v, ⟨""⟩)) :=
  ⟨fun _ _ => rfl, fun _ _ => rfl⟩

/-! ## C3: what the raised parse error carries -/

set_option maxRecDepth 8000

set_option maxHeartbeats 12000000

/-- C3 counterexample input: a JSON object whose first string value contains
a literal newline (first decode error: `Invalid control character at`
position 107) and whose second value is unparseable (`@@@`), so every
recovery strategy fails. -/
def c3Raw : List Char :=
  ("\x7b\"a\": \"".toList) ++ List.replicate 100 'x' ++ ("\ny\", \"b\": @@@\x7d".toList)

/-- The text produced by the structural repairs (trailing-comma
substitutions and `fix_json_strings`) on the stripped counterexample. -/
def c3Repaired : List Char :=
  fix_json_strings (subTrailingComma ']' (subTrailingComma '\x7d' (stripCodeFences c3Raw)))

/-- C3 counterexample: on `c3Raw` every strategy fails, and the raised error
is the SECOND decode error — position 118 in the repaired text, not the
original error's position 107 — and it carries the entire 122-character
repaired payload as its document, not a bounded context snippet (the
100-character snippet around position 107 is only logged). -/
theorem C3_counterexample :
    jsonLoads (stripCodeFences c3Raw)
      = .error ⟨"Invalid control character at", 107, stripCodeFences c3Raw⟩
    ∧ generate_json_post c3Raw = .error ⟨"Expecting value", 118, c3Repaired⟩
    ∧ (118 : Nat) ≠ 107
    ∧ c3Repaired.length = 122
    ∧ 100 < c3Repaired.length :=
  ⟨rfl, rfl, by decide, by decide, by decide⟩

/-- Any error result of the post-second-failure strategies is `e2` itself
(`raise e2` is the only raise in that region). -/
theorem generateJsonTail_error (e2 : PyDecodeError) (r : List Char)
    (e : PyDecodeError) (h : generateJsonTail e2 r = .error e) : e = e2 := by
  unfold generateJsonTail at h
  dsimp only at h
  by_cases hc : containsSub ("Expecting property name".toList) e2.msg.toList = true
  · rw [if_pos hc] at h
    rcases hq : jsonLoads (subPropNames ',' (subPropNames '\x7b' r)) with eq | vq
      <;> rw [hq] at h <;> dsimp only at h
    · split at h
      · split at h
        · simp at h
        · injection h with he
          exact he.symm
      · injection h with he
        exact he.symm
    · simp at h
  · rw [if_neg hc] at h
    dsimp only at h
    split at h
    · split at h
      · simp at h
      · injection h with he
        exact he.symm
    · injection h with he
      exact he.symm

/-- C3 (amended): whenever the whole recovery ladder fails, the error that
`generate_json_post` raises is exactly the decode error of the parse
attempted after the structural repairs (`raise e2`): its position refers to
the repaired text, and its `doc` field carries that entire repaired text —
not the original error position, and not a bounded snippet. -/
theorem C3_raise_is_second_error (raw : List Char) (e : PyDecodeError)
    (h : generate_json_post raw = .error e) :
    jsonLoads (fix_json_strings (subTrailingComma ']'
        (subTrailingComma '\x7d' (stripCodeFences raw)))) = .error e
    ∧ e.doc = fix_json_strings (subTrailingComma ']'
        (subTrailingComma '\x7d' (stripCodeFences raw))) := by
  have hdef : generate_json_post raw =
      (match jsonLoads (stripCodeFences raw) with
      | .ok v => .ok v
      | .error _ =>
        match jsonLoads (fix_json_strings (subTrailingComma ']'
            (subTrailingComma '\x7d' (stripCodeFences raw)))) with
        | .ok v => .ok v
        | .error e2 => generateJsonTail e2 (fix_json_strings (subTrailingComma ']'
            (subTrailingComma '\x7d' (stripCodeFences raw))))) := rfl
  rw [hdef] at h
  rcases h1 : jsonLoads (stripCodeFences raw) with e1 | v1 <;> rw [h1] at h
  · rcases h2 : jsonLoads (fix_json_strings (subTrailingComma ']'
        (subTrailingComma '\x7d' (stripCodeFences raw)))) with e2 | v2
      <;> rw [h2] at h
    · dsimp only at h
      have he := generateJsonTail_error e2 _ e h
      subst he
      exact ⟨rfl, jsonLoads_doc _ _ h2⟩
    · dsimp only at h
      exact absurd h (by simp)
  · dsimp only at h
    exact absurd h (by simp)

/-- C3 witness: the amended theorem applied at the concrete
counterexample. -/
theorem C3_raise_is_second_error_witness :
    jsonLoads c3Repaired = .error ⟨"Expecting value", 118, c3Repaired⟩
    ∧ (PyDecodeError.mk "Expecting value" 118 c3Repaired).doc = c3Repaired :=
  C3_raise_is_second_error c3Raw ⟨"Expecting value", 118, c3Repaired⟩ rfl

/-! ## C9: what span the last-resort extraction takes -/

/-- If a text contains no `}`, the brace regex finds no match anywhere in
it. -/
theorem reSearchBrace_none_of_no_close :
    ∀ s : List Char, lastClosePos s = none → reSearchBrace s = none := by
  intro s
  induction s with
  | nil => intro _; rfl
  | cons c rest ih =>
    intro h
    rcases hr : lastClosePos rest with _ | i
    · simp only [reSearchBrace, hr]
      split_ifs <;> exact ih hr
    · simp [lastClosePos, hr] at h

/-- C9 (amended): the span attempted by the last-resort extraction
`re.search(r'(\{[\s\S]*\})')` is NOT the first brace-balanced span: it runs
from the first `{` (one that some `}` follows) all the way to the LAST `}`
of the text. -/
theorem C9_regex_takes_first_to_last_span :
    ∀ s : List Char, reSearchBrace s = firstToLastSpan s := by
  intro s
  induction s with
  | nil => rfl
  | cons c rest ih =>
    by_cases hc : c = '\x7b'
    · subst hc
      rcases hr : lastClosePos rest with _ | i
      · have hnone : reSearchBrace rest = none := reSearchBrace_none_of_no_close rest hr
        have hl : lastClosePos ('\x7b' :: rest) = none := by
          simp [lastClosePos, hr]
        simp [reSearchBrace, firstToLastSpan, firstOpenIdx, hr, hl, hnone]
      · have hl : lastClosePos ('\x7b' :: rest) = some (i + 1) := by
          simp [lastClosePos, hr]
        simp [reSearchBrace, firstToLastSpan, firstOpenIdx, hr, hl]
    · have hopen : firstOpenIdx (c :: rest) = (firstOpenIdx rest).map (· + 1) := by
        simp [firstOpenIdx, hc]
      have hlhs : reSearchBrace (c :: rest) = firstToLastSpan rest := by
        simp only [reSearchBrace]
        rw [if_neg hc, ih]
      rw [hlhs]
      rcases ho : firstOpenIdx rest with _ | i0
      · simp [firstToLastSpan, hopen, ho]
      · rcases hcl : lastClosePos rest with _ | j0
        · have hclc : lastClosePos (c :: rest) = if c = '\x7d' then some 0 else none := by
            simp [lastClosePos, hcl]
          by_cases hcc : c = '\x7d'
          · subst hcc
            simp [firstToLastSpan, hopen, ho, hclc, hcl]
          · simp [firstToLastSpan, hopen, ho, hclc, hcc, hcl]
        · have hclc : lastClosePos (c :: rest) = some (j0 + 1) := by
            simp [lastClosePos, hcl]
          by_cases hij : i0 < j0
          · simp [firstToLastSpan, hopen, ho, hclc, hcl, hij, Nat.succ_lt_succ_iff,
              Nat.succ_sub_succ, List.drop_succ_cons]
          · simp [firstToLastSpan, hopen, ho, hclc, hcl, hij, Nat.succ_lt_succ_iff]

/-- C9 counterexample text: two balanced objects separated by a space. -/
def c9Text : List Char := "\x7b\"a\": 1\x7d \x7b\"b\": 2\x7d".toList

/-- C9 counterexample: on a text whose first top-level balanced span is
`{"a": 1}`, the code's regex instead captures everything from the first `{`
to the last `}` (the whole text); parsing the balanced span would succeed,
while parsing the captured span fails with `Extra data` — so the extraction
does not attempt the first balanced span. -/
theorem C9_counterexample :
    reSearchBrace c9Text = some c9Text
    ∧ firstBalancedSpan c9Text = some ("\x7b\"a\": 1\x7d".toList)
    ∧ ¬ (reSearchBrace c9Text = firstBalancedSpan c9Text)
    ∧ jsonLoads ("\x7b\"a\": 1\x7d".toList)
        = .ok (.obj [("a".toList, .int 1)])
    ∧ jsonLoads c9Text = .error ⟨"Extra data", 9, c9Text⟩ :=
  ⟨rfl, rfl, by decide, rfl, rfl⟩
